import Mathlib

/-!
# Verification of the ProductGenius search core

A shallow embedding of `src/product_genius.py` (together with the table shapes
from `src/model.py`) and proofs of the specification claims about it.

The two search functions `find_products` and `find_reviews` format the user's
query in Python (`query.strip().split(' ')` joined with `' & '`) and delegate
matching and ranking to PostgreSQL full-text search (`to_tsvector`,
`to_tsquery`, `@@`, `ts_rank`, `setweight`, `ORDER BY relevancy DESC`).
The SQL text is part of the repository and is embedded here directly
(candidate sets, weight labels, the category sub-select, the ordering).
The PostgreSQL text-search engine itself is external to the repository;
its behaviour is modelled from the spec (§4.2): lowercase, tokenize,
strip stop words, stem, conjunctive matching, weighted term-frequency
scoring.  Stemming and the stop-word list are kept as parameters
(`FtsConfig`), so every structural theorem holds for any choice of them,
including the real `'english'` configuration.
-/

namespace ProductGenius

/-! ## String primitives

Python's `str.strip`, `str.split(sep)`, `str.join` and lowercasing are
embedded structurally over the character list of a `String`, matching
Python's semantics (`''.split(' ') = ['']`, consecutive separators produce
empty tokens, …). -/

/-- Split a character list at every character satisfying `p`, keeping empty
tokens — the semantics of Python's `s.split(sep)` for a one-character
separator (with `p` testing for that character). -/
def splitChars (p : Char → Bool) : List Char → List (List Char)
  | [] => [[]]
  | c :: cs =>
    match splitChars p cs with
    | [] => [[]]
    | t :: ts => if p c then [] :: t :: ts else (c :: t) :: ts

/-- Python `sep.join(ws)`. -/
def joinSep (sep : List Char) : List (List Char) → List Char
  | [] => []
  | [w] => w
  | w :: ws => w ++ sep ++ joinSep sep ws

/-- Python `s.strip()`: drop leading and trailing whitespace. -/
def pyStrip (s : String) : String :=
  ⟨((s.data.dropWhile Char.isWhitespace).reverse.dropWhile
      Char.isWhitespace).reverse⟩

/-- Python `s.split(' ')`. -/
def pySplitOnSpace (s : String) : List String :=
  (splitChars (fun c => c == ' ') s.data).map (fun cs => (⟨cs⟩ : String))

/-- Python `sep.join(ws)` at the `String` level. -/
def pyJoin (sep : String) (ws : List String) : String :=
  ⟨joinSep sep.data (ws.map (fun w => w.data))⟩

/-- Character-wise lowercasing. -/
def lowerStr (s : String) : String :=
  ⟨s.data.map Char.toLower⟩

/-- Split on a multi-character separator (fuel-driven scan from the left),
keeping empty tokens: the shape of operands the tsquery parser sees in a
`' & '`-joined request. -/
def splitSepFuel (sep : List Char) : ℕ → List Char → List Char →
    List (List Char)
  | 0, _, acc => [acc.reverse]
  | fuel + 1, l, acc =>
    if sep ≠ [] ∧ sep.isPrefixOf l then
      acc.reverse :: splitSepFuel sep fuel (l.drop sep.length) []
    else
      match l with
      | [] => [acc.reverse]
      | c :: cs => splitSepFuel sep fuel cs (c :: acc)

/-- Split a string on a separator string, keeping empty tokens. -/
def splitOnSepStr (sep s : String) : List String :=
  (splitSepFuel sep.data s.data.length s.data []).map
    (fun cs => (⟨cs⟩ : String))

/-- Modelled from the spec: the external text-search engine's language
configuration.  The spec (§4.2) requires a fixed stop-word list and a
Porter-style stemming transform but leaves both to the engine
(`'english'` in the SQL); they are parameters here. -/
structure FtsConfig where
  stem : String → String
  isStopword : String → Bool

/-- PostgreSQL `setweight` labels.  The SQL tags `title`/`summary` with `'A'`
and `description`/`review` with `'B'`. -/
inductive WeightLabel
  | A
  | B
  | C
  | D
deriving DecidableEq, Repr

/-- A `ts_rank` weight array `{D, C, B, A}`. -/
structure Weights where
  d : ℚ
  c : ℚ
  b : ℚ
  a : ℚ
deriving DecidableEq, Repr

def Weights.get (w : Weights) : WeightLabel → ℚ
  | .A => w.a
  | .B => w.b
  | .C => w.c
  | .D => w.d

/-- The default `ts_rank` weights `{0.1, 0.2, 0.4, 1.0}`, used by
`find_products` (its docstring: "the default weights in ts_rank() are used,
which is 1 for 'A' and 0.4 for 'B'"). -/
def defaultWeights : Weights := ⟨0.1, 0.2, 0.4, 1⟩

/-- The explicit weight array `array[0, 0, 0.8, 1]` passed to `ts_rank` in
`find_reviews`. -/
def reviewWeights : Weights := ⟨0, 0, 0.8, 1⟩

/-- Modelled from the spec: tokenization on word boundaries after
lowercasing (§4.2 "lowercase → tokenize on word boundaries"). -/
def tokenizeRaw (text : String) : List String :=
  ((splitChars (fun c => !c.isAlphanum) (lowerStr text).data).map
    (fun cs => (⟨cs⟩ : String))).filter (fun w => w ≠ "")

/-- Modelled from the spec: stop-word removal followed by stemming
(§4.2 "strip a fixed stop-word list → apply a stemming transform"). -/
def normalizeTokens (cfg : FtsConfig) (ws : List String) : List String :=
  (ws.filter (fun w => !cfg.isStopword w)).map cfg.stem

/-- Modelled from the spec: `to_tsvector('english', text)` tagged with a
`setweight` label — the document's stemmed, stop-word-filtered tokens, each
carrying the field's weight class. -/
def toTsvector (cfg : FtsConfig) (label : WeightLabel) (text : String) :
    List (String × WeightLabel) :=
  (normalizeTokens cfg (tokenizeRaw text)).map (fun w => (w, label))

/-- Modelled from the spec: `to_tsquery('english', formatted)` on a
`' & '`-joined operand list.  An empty operand (as produced by consecutive
spaces in the raw query) is a tsquery syntax error, so parsing fails;
otherwise each operand is lowercased, stop-word-filtered and stemmed. -/
def toTsquery (cfg : FtsConfig) (formatted : String) : Option (List String) :=
  let operands := splitOnSepStr " & " formatted
  if operands.any (fun w => w == "") then none
  else some (normalizeTokens cfg (operands.map lowerStr))

/-- Modelled from the spec: the `@@` match operator — conjunctive: every
query term must occur among the document's lexemes; an empty tsquery
matches nothing. -/
def tsMatch (qterms : List String) (v : List (String × WeightLabel)) : Bool :=
  !qterms.isEmpty && qterms.all (fun t => v.any (fun e => e.1 == t))

/-- Modelled from the spec: `ts_rank` — weighted term-frequency scoring, the
sum over query terms of (term frequency × field weight); the spec fixes
determinism and monotonicity, not an exact normalization constant (§4.2). -/
def tsRank (w : Weights) (v : List (String × WeightLabel))
    (qterms : List String) : ℚ :=
  (qterms.map (fun t =>
    ((v.filter (fun e => e.1 == t)).map (fun e => w.get e.2)).sum)).sum

/-! ## The data model (tables from `src/model.py` that the search core reads)

Only the columns touched by the embedded functions are carried.  The
`products` table as read by the SQL has `title` and `description` text
columns; `reviews` has `summary`, `review` (the body) and the parent `asin`.
-/

structure Product where
  asin : String
  title : String
  description : String
deriving DecidableEq, Repr

structure Review where
  reviewId : ℕ
  asin : String
  summary : String
  review : String
deriving DecidableEq, Repr

/-- A row of the `product_categories` association table. -/
structure ProductCategory where
  asin : String
  catName : String
deriving DecidableEq, Repr

/-- A row of the `favorite_products` table. -/
structure FavoriteProduct where
  id : ℕ
  userId : ℕ
  asin : String
deriving DecidableEq, Repr

/-- The database state visible to the embedded functions.  `nextFavId` is
the autoincrement sequence for `favorite_products.id`. -/
structure Store where
  products : List Product
  reviews : List Review
  categories : List String
  productCategories : List ProductCategory
  favoriteProducts : List FavoriteProduct
  nextFavId : ℕ
deriving DecidableEq, Repr

/-- Errors surfaced by a search/update call.  `invalidQuery` and
`unknownCategory` are the spec's error vocabulary (§7); `tsquerySyntax` is
the database's tsquery parse error; `multipleRows` is SQLAlchemy's
`.one()` failing on more than one row. -/
inductive SearchError
  | invalidQuery
  | unknownCategory
  | tsquerySyntax
  | multipleRows
deriving DecidableEq, Repr

/-! ## Query formatting (`src/product_genius.py` lines 20-21 and 113-114) -/

/-- `words = query.strip().split(' ')` — trim, then split on single spaces
with no whitespace collapsing. -/
def queryWords (query : String) : List String :=
  pySplitOnSpace (pyStrip query)

/-- `search_formatted = ' & '.join(words)` -/
def searchFormatted (query : String) : String :=
  pyJoin " & " (queryWords query)

/-! ## Ranked rows and descending sort (`ORDER BY relevancy DESC`) -/

structure RankedProduct where
  product : Product
  relevancy : ℚ
deriving DecidableEq, Repr

structure RankedReview where
  review : Review
  relevancy : ℚ
deriving DecidableEq, Repr

/-- The `ORDER BY relevancy DESC` comparison on rows keyed by `key`. -/
def descOn {α : Type} (key : α → ℚ) (x y : α) : Prop :=
  key y ≤ key x

instance {α : Type} (key : α → ℚ) : DecidableRel (descOn key) :=
  fun x y => inferInstanceAs (Decidable (key y ≤ key x))

instance {α : Type} (key : α → ℚ) : IsTotal α (descOn key) :=
  ⟨fun x y => le_total (key y) (key x)⟩

instance {α : Type} (key : α → ℚ) : IsTrans α (descOn key) :=
  ⟨fun _ _ _ h h' => le_trans h' h⟩

/-! ## The search functions -/

/-- The tsvector the products SQL builds:
`setweight(to_tsvector('english', title), 'A') ||
 setweight(to_tsvector('english', description), 'B')`. -/
def productVector (cfg : FtsConfig) (p : Product) : List (String × WeightLabel) :=
  toTsvector cfg .A p.title ++ toTsvector cfg .B p.description

/-- The tsvector the reviews SQL builds:
`setweight(to_tsvector('english', summary), 'A') ||
 setweight(to_tsvector('english', review), 'B')`. -/
def reviewVector (cfg : FtsConfig) (r : Review) : List (String × WeightLabel) :=
  toTsvector cfg .A r.summary ++ toTsvector cfg .B r.review

/-- The category sub-select of `find_products`:
`SELECT asin FROM categories INNER JOIN product_categories USING (cat_name)
 INNER JOIN products USING (asin) WHERE pc.cat_name = :category`. -/
def categoryAsins (s : Store) (cat : String) : List String :=
  ((s.productCategories.filter (fun pc =>
    pc.catName == cat && s.categories.contains pc.catName
      && s.products.any (fun p => p.asin == pc.asin))).map (fun pc => pc.asin))

/-- `find_products(query, index)` — formats the query, then runs one of the
two SQL statements: candidates are all products (index `"All"`) or those in
the category sub-select; rows matching the tsquery are scored with the
default `ts_rank` weights and ordered by descending relevancy. -/
def find_products (cfg : FtsConfig) (s : Store) (query : String)
    (index : String) : Except SearchError (List RankedProduct) :=
  match toTsquery cfg (searchFormatted query) with
  | none => .error .tsquerySyntax
  | some qterms =>
    let candidates :=
      if index == "All" then s.products
      else s.products.filter (fun p => (categoryAsins s index).contains p.asin)
    let matching := candidates.filter (fun p => tsMatch qterms (productVector cfg p))
    let rows := matching.map (fun p =>
      RankedProduct.mk p (tsRank defaultWeights (productVector cfg p) qterms))
    .ok (rows.insertionSort (descOn RankedProduct.relevancy))

/-- `find_reviews(asin, query)` — formats the query, restricts candidates to
reviews `WHERE asin=:asin`, scores matching rows with
`ts_rank(array[0, 0, 0.8, 1], …)` and orders by descending relevancy. -/
def find_reviews (cfg : FtsConfig) (s : Store) (asin : String)
    (query : String) : Except SearchError (List RankedReview) :=
  match toTsquery cfg (searchFormatted query) with
  | none => .error .tsquerySyntax
  | some qterms =>
    let candidates := s.reviews.filter (fun r => r.asin == asin)
    let matching := candidates.filter (fun r => tsMatch qterms (reviewVector cfg r))
    let rows := matching.map (fun r =>
      RankedReview.mk r (tsRank reviewWeights (reviewVector cfg r) qterms))
    .ok (rows.insertionSort (descOn RankedReview.relevancy))

/-- `find_products` as a database transaction: a SELECT returns its rows and
leaves the store unchanged. -/
def find_products_st (cfg : FtsConfig) (s : Store) (query : String)
    (index : String) : Except SearchError (List RankedProduct) × Store :=
  (find_products cfg s query index, s)

/-- `find_reviews` as a database transaction: a SELECT returns its rows and
leaves the store unchanged. -/
def find_reviews_st (cfg : FtsConfig) (s : Store) (asin : String)
    (query : String) : Except SearchError (List RankedReview) × Store :=
  (find_reviews cfg s asin query, s)

/-! ## `update_favorite_product` (`src/product_genius.py` lines 174-192) -/

/-- The rows `FavoriteProduct.query.filter(user_id==…, asin==…)` selects. -/
def favMatches (s : Store) (userId : ℕ) (asin : String) : List FavoriteProduct :=
  s.favoriteProducts.filter (fun f => f.userId == userId && f.asin == asin)

/-- `update_favorite_product(user_id, asin)` — if no matching favorite row
exists, a fresh row is inserted (autoincrement id) and `"Favorited"` is
returned; otherwise `favorite.one()` is deleted (raising if the filter
matched more than one row) and `"Unfavorited"` is returned. -/
def update_favorite_product (s : Store) (userId : ℕ) (asin : String) :
    Except SearchError (String × Store) :=
  let matching := favMatches s userId asin
  if matching.length == 0 then
    .ok ("Favorited",
      { s with
        favoriteProducts :=
          s.favoriteProducts ++ [⟨s.nextFavId, userId, asin⟩],
        nextFavId := s.nextFavId + 1 })
  else if matching.length == 1 then
    .ok ("Unfavorited",
      { s with
        favoriteProducts :=
          s.favoriteProducts.filter
            (fun f => !(f.userId == userId && f.asin == asin)) })
  else .error .multipleRows

/-- The favorite-status content of `favorite_products`: the multiset of
(user, product) pairs, ignoring the autoincrement row ids. -/
def favPairs (s : Store) : List (ℕ × String) :=
  s.favoriteProducts.map (fun f => (f.userId, f.asin))

/-! ## Concrete fixtures for the scenario-level theorems

`cfg0` is one concrete engine configuration (identity stemming, a small
stop-word list); the structural theorems below are proved for every
configuration, and `cfg0` only instantiates them on concrete data. -/

def cfg0 : FtsConfig :=
  ⟨fun w => w,
   fun w => ["the", "a", "an", "is", "and", "or", "of", "to", "in", "on",
     "for"].contains w⟩

/-- Scenario A/D products: `prod1` matches electronics queries in its title,
`prod2` mentions "wireless" only in its description. -/
def prod1 : Product := ⟨"A1", "Wireless Mouse Pro", "ergonomic"⟩

def prod2 : Product := ⟨"A2", "USB Cable", "wireless charging compatible"⟩

/-- A store whose category table knows `Electronics` and `Books`:
`prod1` is in `Electronics`, `prod2` only in `Books`. -/
def storeE : Store :=
  ⟨[prod1, prod2], [], ["Electronics", "Books"],
   [⟨"A1", "Electronics"⟩, ⟨"A2", "Books"⟩], [], 1⟩

/-- A store whose category table knows only `Books`, so that
`"Electronics"` names a category that does not exist. -/
def storeU : Store :=
  ⟨[prod1, prod2], [], ["Books"], [⟨"A1", "Books"⟩], [], 1⟩

/-- Scenario C reviews of product `P1` (plus a review of another product):
`rev1` matches "Great battery" only in its summary, `rev2` only in its
body. -/
def rev1 : Review := ⟨1, "P1", "Great battery", "ok"⟩

def rev2 : Review := ⟨2, "P1", "ok", "Great battery life"⟩

def rev3 : Review := ⟨3, "P2", "Great battery", "great"⟩

def storeC : Store := ⟨[], [rev1, rev2, rev3], [], [], [], 1⟩

/-- A store populated with both products and reviews. -/
def storeW : Store :=
  ⟨[prod1, prod2], [rev1, rev2, rev3], ["Electronics", "Books"],
   [⟨"A1", "Electronics"⟩, ⟨"A2", "Books"⟩], [], 1⟩

/-- Scenario C evaluated: the summary-matching review scores `1 + 1 = 2`
(two `'A'` hits at weight `1`), the body-matching review scores
`0.8 + 0.8 = 8/5` (two `'B'` hits at weight `0.8`), and the output is
ordered accordingly. -/
theorem scenarioC_eval :
    find_reviews cfg0 storeC "P1" "Great battery" =
      .ok [⟨rev1, 2⟩, ⟨rev2, 8/5⟩] := by
  have hq : toTsquery cfg0 (searchFormatted "Great battery") =
      some ["great", "battery"] := rfl
  have ha1 : List.filter (fun e => e.1 == "great") (reviewVector cfg0 rev1) =
      [("great", WeightLabel.A)] := rfl
  have hb1 : List.filter (fun e => e.1 == "battery") (reviewVector cfg0 rev1) =
      [("battery", WeightLabel.A)] := rfl
  have ha2 : List.filter (fun e => e.1 == "great") (reviewVector cfg0 rev2) =
      [("great", WeightLabel.B)] := rfl
  have hb2 : List.filter (fun e => e.1 == "battery") (reviewVector cfg0 rev2) =
      [("battery", WeightLabel.B)] := rfl
  have h1 : tsRank reviewWeights (reviewVector cfg0 rev1) ["great", "battery"] = 2 := by
    simp only [tsRank, List.map_cons, List.map_nil, ha1, hb1, Weights.get,
      reviewWeights, List.sum_cons, List.sum_nil]
    norm_num
  have h2 : tsRank reviewWeights (reviewVector cfg0 rev2) ["great", "battery"] = 8/5 := by
    simp only [tsRank, List.map_cons, List.map_nil, ha2, hb2, Weights.get,
      reviewWeights, List.sum_cons, List.sum_nil]
    norm_num
  have hm : (storeC.reviews.filter (fun r => r.asin == "P1")).filter
      (fun r => tsMatch ["great", "battery"] (reviewVector cfg0 r)) = [rev1, rev2] := rfl
  rw [find_reviews, hq]
  simp only [hm, List.map_cons, List.map_nil, h1, h2]
  simp only [List.insertionSort, List.orderedInsert]
  rw [if_pos (by norm_num [descOn])]

/-! ## The claims -/

/-- C1: query normalization, in both product search and review search, trims
the raw query, splits it on single-space boundaries without collapsing runs
of whitespace (consecutive spaces produce empty tokens), and joins the
tokens with `' & '`; the `&`-joined terms are matched conjunctively. -/
theorem c1_query_normalization :
    (∀ q : String, searchFormatted q = pyJoin " & " (pySplitOnSpace (pyStrip q))) ∧
    queryWords "a  b" = ["a", "", "b"] ∧
    searchFormatted "a  b" = "a &  & b" ∧
    (∀ (qterms : List String) (v : List (String × WeightLabel)),
      tsMatch qterms v = true ↔ qterms ≠ [] ∧ ∀ t ∈ qterms, ∃ e ∈ v, e.1 = t) := by
  refine ⟨fun q => rfl, rfl, rfl, fun qterms v => ?_⟩
  simp [tsMatch, List.isEmpty_eq_false, List.all_eq_true, List.any_eq_true]

/-- C2 counterexample: on the whitespace-only query `"  "`, the code does
not fail with `InvalidQueryError` before reaching the store; the empty
formatted query is passed on and the failure is the store's tsquery syntax
error, in both searches. -/
theorem c2_counterexample :
    find_products cfg0 storeE "  " "All" = .error .tsquerySyntax ∧
    find_products cfg0 storeE "  " "All" ≠ .error .invalidQuery ∧
    find_reviews cfg0 storeC "P1" "  " = .error .tsquerySyntax ∧
    find_reviews cfg0 storeC "P1" "  " ≠ .error .invalidQuery := by
  have h1 : find_products cfg0 storeE "  " "All" = .error .tsquerySyntax := rfl
  have h2 : find_reviews cfg0 storeC "P1" "  " = .error .tsquerySyntax := rfl
  refine ⟨h1, ?_, h2, ?_⟩ <;> intro hc
  · rw [h1] at hc
    exact absurd (Except.error.inj hc) (by decide)
  · rw [h2] at hc
    exact absurd (Except.error.inj hc) (by decide)

/-- C2 amended: for every input that is empty or whitespace-only after
trimming, normalization does not reject the query: it yields the single
empty token, formats it to the empty string, and the search is attempted —
it fails with the store's tsquery syntax error, not with
`InvalidQueryError`. -/
theorem c2_amended (cfg : FtsConfig) (s : Store) (q index asin : String)
    (h : pyStrip q = "") :
    queryWords q = [""] ∧ searchFormatted q = "" ∧
    find_products cfg s q index = .error .tsquerySyntax ∧
    find_reviews cfg s asin q = .error .tsquerySyntax := by
  have hw : queryWords q = [""] := by
    rw [queryWords, h]
    rfl
  have hf : searchFormatted q = "" := by
    rw [searchFormatted, hw]
    rfl
  have ht : toTsquery cfg (searchFormatted q) = none := by
    rw [hf]
    rfl
  refine ⟨hw, hf, ?_, ?_⟩
  · rw [find_products, ht]
  · rw [find_reviews, ht]

theorem c2_amended_witness :
    pyStrip "  " = "" ∧
    (queryWords "  " = [""] ∧ searchFormatted "  " = "" ∧
      find_products cfg0 storeE "  " "All" = .error .tsquerySyntax ∧
      find_reviews cfg0 storeC "P1" "  " = .error .tsquerySyntax) :=
  ⟨rfl, c2_amended cfg0 storeE "  " "All" "P1" rfl⟩

/-- C3 counterexample: with category filter `"Electronics"` naming a
category absent from the category store, product search for `"mouse"` does
not fail with `UnknownCategoryError`: it returns the empty result sequence,
although the same query and store produce a match under `"All"`. -/
theorem c3_counterexample :
    find_products cfg0 storeU "mouse" "Electronics" = .ok [] ∧
    (∀ e, find_products cfg0 storeU "mouse" "Electronics" ≠ .error e) ∧
    find_products cfg0 storeU "mouse" "All" =
      .ok [⟨prod1, tsRank defaultWeights (productVector cfg0 prod1) ["mouse"]⟩] := by
  have h : find_products cfg0 storeU "mouse" "Electronics" = .ok [] := rfl
  refine ⟨h, fun e hc => ?_, rfl⟩
  rw [h] at hc
  exact Except.noConfusion hc

/-- C3 amended: a category filter naming a category not present in the
category store makes the sub-select empty, so product search returns an
empty result sequence; `UnknownCategoryError` is never raised on any
input. -/
theorem c3_amended (cfg : FtsConfig) (s : Store) (q c : String)
    (qt : List String) (hc : c ≠ "All")
    (hnc : s.categories.contains c = false)
    (hq : toTsquery cfg (searchFormatted q) = some qt) :
    find_products cfg s q c = .ok [] ∧
    (∀ q0 i0 : String, find_products cfg s q0 i0 ≠ .error .unknownCategory) := by
  have hce : (c == "All") = false := beq_eq_false_iff_ne.mpr hc
  have hca : categoryAsins s c = [] := by
    unfold categoryAsins
    rw [List.map_eq_nil_iff, List.filter_eq_nil_iff]
    intro pc _ hcontra
    simp only [Bool.and_eq_true, beq_iff_eq] at hcontra
    obtain ⟨⟨h1, h2⟩, _⟩ := hcontra
    rw [h1, hnc] at h2
    exact Bool.false_ne_true h2
  constructor
  · rw [find_products, hq]
    simp [hce, hca]
  · intro q0 i0 hcontra
    cases htq : toTsquery cfg (searchFormatted q0) with
    | none =>
      rw [find_products, htq] at hcontra
      exact absurd (Except.error.inj hcontra) (by decide)
    | some qts =>
      rw [find_products, htq] at hcontra
      exact Except.noConfusion hcontra

theorem c3_amended_witness :
    ("Electronics" ≠ "All") ∧
    storeU.categories.contains "Electronics" = false ∧
    toTsquery cfg0 (searchFormatted "mouse") = some ["mouse"] ∧
    (find_products cfg0 storeU "mouse" "Electronics" = .ok [] ∧
      ∀ q0 i0 : String,
        find_products cfg0 storeU q0 i0 ≠ .error .unknownCategory) :=
  ⟨by decide, rfl, rfl,
   c3_amended cfg0 storeU "mouse" "Electronics" ["mouse"] (by decide) rfl rfl⟩

/-- C4: the result sequence of both product search and review search is
sorted by descending relevancy score — every result's score is at least the
next one's. -/
theorem c4_sorted_desc (cfg : FtsConfig) (s : Store) (q index asin : String) :
    (∀ rs, find_products cfg s q index = .ok rs →
      rs.Chain' (fun x y => y.relevancy ≤ x.relevancy)) ∧
    (∀ rs, find_reviews cfg s asin q = .ok rs →
      rs.Chain' (fun x y => y.relevancy ≤ x.relevancy)) := by
  refine ⟨fun rs h => ?_, fun rs h => ?_⟩
  · cases htq : toTsquery cfg (searchFormatted q) with
    | none =>
      rw [find_products, htq] at h
      exact Except.noConfusion h
    | some qts =>
      rw [find_products, htq] at h
      obtain rfl := (Except.ok.inj h).symm
      exact List.Pairwise.chain'
        (List.sorted_insertionSort (descOn RankedProduct.relevancy) _)
  · cases htq : toTsquery cfg (searchFormatted q) with
    | none =>
      rw [find_reviews, htq] at h
      exact Except.noConfusion h
    | some qts =>
      rw [find_reviews, htq] at h
      obtain rfl := (Except.ok.inj h).symm
      exact List.Pairwise.chain'
        (List.sorted_insertionSort (descOn RankedReview.relevancy) _)

theorem c4_sorted_desc_witness :
    find_reviews cfg0 storeC "P1" "Great battery" =
      .ok [⟨rev1, 2⟩, ⟨rev2, 8/5⟩] ∧
    List.Chain' (fun x y => y.relevancy ≤ x.relevancy)
      [(⟨rev1, 2⟩ : RankedReview), ⟨rev2, 8/5⟩] :=
  ⟨scenarioC_eval,
   (c4_sorted_desc cfg0 storeC "Great battery" "All" "P1").2 _ scenarioC_eval⟩

/-- C5: review search scores with the non-default weight vector
`[0, 0, 0.8, 1]` rather than the product-search default, and on the
Scenario C inputs the review matching the query only in its summary
(weight 1) precedes the review matching only in its body. -/
theorem c5_review_weight_vector :
    reviewWeights = ⟨0, 0, 0.8, 1⟩ ∧
    reviewWeights ≠ defaultWeights ∧
    find_reviews cfg0 storeC "P1" "Great battery" =
      .ok [⟨rev1, 2⟩, ⟨rev2, 8/5⟩] ∧
    (8/5 : ℚ) < 2 := by
  refine ⟨rfl, ?_, scenarioC_eval, by norm_num⟩
  have hb : reviewWeights.b ≠ defaultWeights.b := by
    norm_num [reviewWeights, defaultWeights]
  exact fun h => hb (congrArg Weights.b h)

/-- C6: for every category filter other than `"All"`, every product in the
result sequence is associated with that category through a
`product_categories` row; no product outside the category appears. -/
theorem c6_category_exclusivity (cfg : FtsConfig) (s : Store) (q c : String)
    (rs : List RankedProduct) (hc : c ≠ "All")
    (h : find_products cfg s q c = .ok rs) :
    ∀ r ∈ rs, ∃ pc ∈ s.productCategories,
      pc.asin = r.product.asin ∧ pc.catName = c := by
  intro r hr
  cases htq : toTsquery cfg (searchFormatted q) with
  | none =>
    rw [find_products, htq] at h
    exact Except.noConfusion h
  | some qts =>
    rw [find_products, htq] at h
    obtain rfl := (Except.ok.inj h).symm
    rw [List.mem_insertionSort] at hr
    obtain ⟨p, hp, rfl⟩ := List.mem_map.mp hr
    have hce : (c == "All") = false := beq_eq_false_iff_ne.mpr hc
    rw [hce] at hp
    simp only [Bool.false_eq_true, if_false] at hp
    obtain ⟨hp2, _⟩ := List.mem_filter.mp hp
    obtain ⟨_, hcont⟩ := List.mem_filter.mp hp2
    have hmem : p.asin ∈ categoryAsins s c := List.elem_iff.mp hcont
    unfold categoryAsins at hmem
    obtain ⟨pc, hpc, hasin⟩ := List.mem_map.mp hmem
    obtain ⟨hpcs, hpred⟩ := List.mem_filter.mp hpc
    simp only [Bool.and_eq_true, beq_iff_eq] at hpred
    exact ⟨pc, hpcs, hasin, hpred.1.1⟩

theorem c6_category_exclusivity_witness :
    ("Electronics" ≠ "All") ∧
    find_products cfg0 storeE "wireless" "Electronics" =
      .ok [⟨prod1, tsRank defaultWeights (productVector cfg0 prod1) ["wireless"]⟩] ∧
    (∀ r ∈ [(⟨prod1,
        tsRank defaultWeights (productVector cfg0 prod1) ["wireless"]⟩ :
        RankedProduct)],
      ∃ pc ∈ storeE.productCategories,
        pc.asin = r.product.asin ∧ pc.catName = "Electronics") :=
  ⟨by decide, rfl,
   c6_category_exclusivity cfg0 storeE "wireless" "Electronics" _ (by decide) rfl⟩

/-- C7: a well-formed query whose terms match no candidate document yields
the empty result sequence from both searches, not an error. -/
theorem c7_zero_match_ok (cfg : FtsConfig) (s : Store) (q index asin : String)
    (qt : List String) (hq : toTsquery cfg (searchFormatted q) = some qt)
    (hp : ∀ p ∈ s.products, tsMatch qt (productVector cfg p) = false)
    (hr : ∀ r ∈ s.reviews, tsMatch qt (reviewVector cfg r) = false) :
    find_products cfg s q index = .ok [] ∧
    find_reviews cfg s asin q = .ok [] := by
  have hm : ∀ cand : List Product, (∀ p ∈ cand, p ∈ s.products) →
      cand.filter (fun p => tsMatch qt (productVector cfg p)) = [] := by
    intro cand hsub
    rw [List.filter_eq_nil_iff]
    intro p hpc
    rw [hp p (hsub p hpc)]
    simp
  constructor
  · rw [find_products, hq]
    by_cases hI : (index == "All") = true
    · rw [if_pos hI]
      simp only [hm s.products (fun p hmem => hmem)]
      rfl
    · rw [if_neg hI]
      simp only [hm (s.products.filter
        (fun p => (categoryAsins s index).contains p.asin))
        (fun p hmem => (List.mem_filter.mp hmem).1)]
      rfl
  · rw [find_reviews, hq]
    have hmr : (s.reviews.filter (fun r => r.asin == asin)).filter
        (fun r => tsMatch qt (reviewVector cfg r)) = [] := by
      rw [List.filter_eq_nil_iff]
      intro r hrc
      rw [hr r (List.mem_filter.mp hrc).1]
      simp
    simp only [hmr]
    rfl

theorem c7_zero_match_ok_witness :
    toTsquery cfg0 (searchFormatted "zebra") = some ["zebra"] ∧
    (∀ p ∈ storeW.products, tsMatch ["zebra"] (productVector cfg0 p) = false) ∧
    (∀ r ∈ storeW.reviews, tsMatch ["zebra"] (reviewVector cfg0 r) = false) ∧
    (find_products cfg0 storeW "zebra" "All" = .ok [] ∧
      find_reviews cfg0 storeW "P1" "zebra" = .ok []) :=
  ⟨rfl, by decide, by decide,
   c7_zero_match_ok cfg0 storeW "zebra" "All" "P1" ["zebra"] rfl
     (by decide) (by decide)⟩

/-- C8: every review returned by review search belongs to the requested
product: its parent `asin` equals the `asin` argument. -/
theorem c8_review_parent (cfg : FtsConfig) (s : Store) (asin q : String)
    (rs : List RankedReview) (h : find_reviews cfg s asin q = .ok rs) :
    ∀ r ∈ rs, r.review.asin = asin := by
  intro r hr
  cases htq : toTsquery cfg (searchFormatted q) with
  | none =>
    rw [find_reviews, htq] at h
    exact Except.noConfusion h
  | some qts =>
    rw [find_reviews, htq] at h
    obtain rfl := (Except.ok.inj h).symm
    rw [List.mem_insertionSort] at hr
    obtain ⟨rev, hrev, rfl⟩ := List.mem_map.mp hr
    obtain ⟨hrev2, _⟩ := List.mem_filter.mp hrev
    exact beq_iff_eq.mp (List.mem_filter.mp hrev2).2

theorem c8_review_parent_witness :
    find_reviews cfg0 storeC "P2" "battery" =
      .ok [⟨rev3, tsRank reviewWeights (reviewVector cfg0 rev3) ["battery"]⟩] ∧
    (∀ r ∈ [(⟨rev3,
        tsRank reviewWeights (reviewVector cfg0 rev3) ["battery"]⟩ :
        RankedReview)],
      r.review.asin = "P2") :=
  ⟨rfl, c8_review_parent cfg0 storeC "P2" "battery" _ rfl⟩

/-- C9: both searches are deterministic in the store and their arguments
and leave the store unchanged, so running the same search twice against an
unchanged store yields identical ordered output. -/
theorem c9_idempotent_readonly (cfg : FtsConfig) (s : Store)
    (q index asin : String) :
    (find_products_st cfg s q index).2 = s ∧
    (find_products_st cfg (find_products_st cfg s q index).2 q index).1 =
      (find_products_st cfg s q index).1 ∧
    (find_reviews_st cfg s asin q).2 = s ∧
    (find_reviews_st cfg (find_reviews_st cfg s asin q).2 asin q).1 =
      (find_reviews_st cfg s asin q).1 :=
  ⟨rfl, rfl, rfl, rfl⟩

/-- C10: `update_favorite_product` is a toggle.  With at most one matching
favorite row, one call succeeds, answers `"Favorited"` exactly when the
(user, product) pair was absent and `"Unfavorited"` exactly when it was
present, flips the pair's presence, and a second call restores the
favorite-pair content of `favorite_products` (the autoincrement row ids are
fresh, so restoration is up to the pair multiset). -/
theorem c10_favorite_toggle (s : Store) (uid : ℕ) (asin : String)
    (h : (favMatches s uid asin).length ≤ 1) :
    ∃ msg s1, update_favorite_product s uid asin = .ok (msg, s1) ∧
      ((msg = "Favorited") ↔ favMatches s uid asin = []) ∧
      ((msg = "Unfavorited") ↔ favMatches s uid asin ≠ []) ∧
      (favMatches s1 uid asin ≠ [] ↔ favMatches s uid asin = []) ∧
      ∃ msg2 s2, update_favorite_product s1 uid asin = .ok (msg2, s2) ∧
        (favPairs s2).Perm (favPairs s) := by
  rcases Nat.le_one_iff_eq_zero_or_eq_one.mp h with hlen | hlen
  · -- the pair is absent: favorite it, then unfavoriting restores the table
    have hnil : favMatches s uid asin = [] := List.length_eq_zero.mp hlen
    have hall : ∀ f ∈ s.favoriteProducts,
        (f.userId == uid && f.asin == asin) = false := by
      intro f hf
      have := List.filter_eq_nil_iff.mp hnil f hf
      simpa using this
    refine ⟨"Favorited",
      ⟨s.products, s.reviews, s.categories, s.productCategories,
        s.favoriteProducts ++ [⟨s.nextFavId, uid, asin⟩], s.nextFavId + 1⟩,
      ?_, ?_, ?_, ?_, "Unfavorited",
      ⟨s.products, s.reviews, s.categories, s.productCategories,
        s.favoriteProducts, s.nextFavId + 1⟩, ?_, ?_⟩
    · unfold update_favorite_product
      rw [hnil]
      rfl
    · exact iff_of_true rfl hnil
    · refine iff_of_false (by decide) ?_
      simp [hnil]
    · have hflip : favMatches
          (⟨s.products, s.reviews, s.categories, s.productCategories,
            s.favoriteProducts ++ [⟨s.nextFavId, uid, asin⟩],
            s.nextFavId + 1⟩ : Store) uid asin =
          [⟨s.nextFavId, uid, asin⟩] := by
        have hnilf : List.filter
            (fun f => f.userId == uid && f.asin == asin)
            s.favoriteProducts = [] := hnil
        simp [favMatches, List.filter_append, hnilf]
      rw [hflip]
      exact iff_of_true (by simp) hnil
    · have hflip : favMatches
          (⟨s.products, s.reviews, s.categories, s.productCategories,
            s.favoriteProducts ++ [⟨s.nextFavId, uid, asin⟩],
            s.nextFavId + 1⟩ : Store) uid asin =
          [⟨s.nextFavId, uid, asin⟩] := by
        have hnilf : List.filter
            (fun f => f.userId == uid && f.asin == asin)
            s.favoriteProducts = [] := hnil
        simp [favMatches, List.filter_append, hnilf]
      have hkeep : (s.favoriteProducts ++
          [(⟨s.nextFavId, uid, asin⟩ : FavoriteProduct)]).filter
            (fun f => !(f.userId == uid && f.asin == asin)) =
          s.favoriteProducts := by
        rw [List.filter_append]
        have hid : s.favoriteProducts.filter
            (fun f => !(f.userId == uid && f.asin == asin)) =
            s.favoriteProducts :=
          List.filter_eq_self.mpr (fun f hf => by simp [hall f hf])
        rw [hid]
        simp
      unfold update_favorite_product
      rw [hflip]
      exact congrArg (fun l => Except.ok ("Unfavorited",
        Store.mk s.products s.reviews s.categories s.productCategories l
          (s.nextFavId + 1))) hkeep
    · exact List.Perm.refl _
  · -- the pair is present: unfavorite it, then favoriting re-adds the pair
    obtain ⟨f, hf⟩ := List.length_eq_one.mp hlen
    have hff : f ∈ favMatches s uid asin := by
      rw [hf]
      exact List.mem_singleton_self f
    have hpredf : (f.userId == uid && f.asin == asin) = true :=
      (List.mem_filter.mp hff).2
    have hfu : f.userId = uid := by
      have := (Bool.and_eq_true _ _).mp hpredf
      exact beq_iff_eq.mp this.1
    have hfa : f.asin = asin := by
      have := (Bool.and_eq_true _ _).mp hpredf
      exact beq_iff_eq.mp this.2
    have hflip : favMatches
        (⟨s.products, s.reviews, s.categories, s.productCategories,
          s.favoriteProducts.filter
            (fun f => !(f.userId == uid && f.asin == asin)),
          s.nextFavId⟩ : Store) uid asin = [] := by
      simp only [favMatches, List.filter_filter, Bool.and_not_self]
      simp
    refine ⟨"Unfavorited",
      ⟨s.products, s.reviews, s.categories, s.productCategories,
        s.favoriteProducts.filter
          (fun f => !(f.userId == uid && f.asin == asin)),
        s.nextFavId⟩,
      ?_, ?_, ?_, ?_, "Favorited",
      ⟨s.products, s.reviews, s.categories, s.productCategories,
        s.favoriteProducts.filter
          (fun f => !(f.userId == uid && f.asin == asin)) ++
          [⟨s.nextFavId, uid, asin⟩], s.nextFavId + 1⟩, ?_, ?_⟩
    · unfold update_favorite_product
      rw [hf]
      rfl
    · refine iff_of_false (by decide) ?_
      simp [hf]
    · exact iff_of_true rfl (by simp [hf])
    · rw [hflip]
      refine iff_of_false (by simp) ?_
      simp [hf]
    · unfold update_favorite_product
      rw [hflip]
      rfl
    · have base : ([f] ++ s.favoriteProducts.filter
          (fun x => !(x.userId == uid && x.asin == asin))).Perm
          s.favoriteProducts := by
        have h0 := List.filter_append_perm
          (fun x => x.userId == uid && x.asin == asin) s.favoriteProducts
        rwa [show List.filter
          (fun x => x.userId == uid && x.asin == asin)
          s.favoriteProducts = [f] from hf] at h0
      have base2 := base.map (fun x => (x.userId, x.asin))
      have hsingle := List.perm_append_singleton ((uid, asin) : ℕ × String)
        (List.map (fun x => (x.userId, x.asin))
          (s.favoriteProducts.filter
            (fun x => !(x.userId == uid && x.asin == asin))))
      have hmap : favPairs
          (⟨s.products, s.reviews, s.categories, s.productCategories,
            s.favoriteProducts.filter
              (fun f => !(f.userId == uid && f.asin == asin)) ++
              [⟨s.nextFavId, uid, asin⟩], s.nextFavId + 1⟩ : Store) =
          List.map (fun x => (x.userId, x.asin))
            (s.favoriteProducts.filter
              (fun x => !(x.userId == uid && x.asin == asin))) ++
            [(uid, asin)] := by
        simp [favPairs]
      rw [hmap]
      refine hsingle.trans ?_
      have : ((uid, asin) :: List.map (fun x => (x.userId, x.asin))
          (s.favoriteProducts.filter
            (fun x => !(x.userId == uid && x.asin == asin)))) =
          List.map (fun x => (x.userId, x.asin))
            ([f] ++ s.favoriteProducts.filter
              (fun x => !(x.userId == uid && x.asin == asin))) := by
        simp [hfu, hfa]
      rw [this]
      exact base2

theorem c10_favorite_toggle_witness :
    (favMatches storeW 7 "A1").length ≤ 1 ∧
    (∃ msg s1, update_favorite_product storeW 7 "A1" = .ok (msg, s1) ∧
      ((msg = "Favorited") ↔ favMatches storeW 7 "A1" = []) ∧
      ((msg = "Unfavorited") ↔ favMatches storeW 7 "A1" ≠ []) ∧
      (favMatches s1 7 "A1" ≠ [] ↔ favMatches storeW 7 "A1" = []) ∧
      ∃ msg2 s2, update_favorite_product s1 7 "A1" = .ok (msg2, s2) ∧
        (favPairs s2).Perm (favPairs storeW)) :=
  ⟨by decide, c10_favorite_toggle storeW 7 "A1" (by decide)⟩

end ProductGenius
